import Mathlib

/-!
Verification of the flow-builder graph model of caue-mor/IAGenerica.

The development shallowly embeds the data model and the graph conversions of
the repository's flow builder:

* the Flow Document types (FlowNode, FlowEdge, FlowConfig, NodeConfig and the
  closed tag unions) from src/frontend/src/types/index.ts;
* the editor representation (reactflow nodes/edges as the code uses them) and
  the conversion helpers flowNodeToReactFlow, flowEdgeToReactFlow and
  reactFlowToFlowConfig from src/frontend/src/types/flow.types.ts;
* the flow-builder page operations saveFlow, deleteNode and onNodesDelete from
  src/frontend/src/app/dashboard/flow-builder/page.tsx;
* the node-component registry from the flow-builder nodes module.

The Flow Interpreter and the Flow Document validator live in the backend
executor, which is not among the repository's source files; those two pieces
are modelled from the specification and are marked as such in their doc
comments.

TypeScript strings are Lean String, numbers Int (coordinates and numeric
comparisons in the embedded fragment are integral), undefined/optional fields
Option, and JavaScript falsiness of an optional string (undefined or "") is
made explicit.
-/

/-- One of the closed node-kind tags declared by the TypeScript union
NodeType in src/frontend/src/types/index.ts. -/
inductive NodeType where
  | GREETING
  | QUESTION
  | CONDITION
  | MESSAGE
  | ACTION
  | HANDOFF
  | FOLLOWUP
deriving DecidableEq, Repr

/-- The string literal each NodeType tag stands for in the TypeScript union. -/
def NodeType.toStr : NodeType → String
  | .GREETING => "GREETING"
  | .QUESTION => "QUESTION"
  | .CONDITION => "CONDITION"
  | .MESSAGE => "MESSAGE"
  | .ACTION => "ACTION"
  | .HANDOFF => "HANDOFF"
  | .FOLLOWUP => "FOLLOWUP"

/-- FieldType union from src/frontend/src/types/index.ts. -/
inductive FieldType where
  | text
  | number
  | email
  | phone
  | date
  | select
  | boolean
deriving DecidableEq, Repr

/-- Operator union from src/frontend/src/types/index.ts (the member written
exists in TypeScript is a Lean keyword, hence the quoted name). -/
inductive Operator where
  | equals
  | not_equals
  | contains
  | not_contains
  | greater_than
  | less_than
  | is_empty
  | is_not_empty
  | «exists»
deriving DecidableEq, Repr

/-- ActionType union from src/frontend/src/types/index.ts. -/
inductive ActionType where
  | webhook
  | api_call
  | update_field
  | tag_lead
  | move_status
deriving DecidableEq, Repr

/-- Untyped JSON-like value, standing for the TypeScript any in the config
fields valor and body. -/
inductive JValue where
  | jnull
  | jbool (b : Bool)
  | jnum (n : Int)
  | jstr (s : String)
  | jarr (xs : List JValue)
  | jobj (kvs : List (String × JValue))

/-- The inline position record used by FlowNode and the reactflow nodes.
Screen coordinates are modelled as integers. -/
structure Position where
  x : Int
  y : Int
deriving DecidableEq, Repr

/-- NodeConfig from src/frontend/src/types/index.ts: one loosely-typed bag of
optional per-kind fields, kept verbatim. -/
structure NodeConfig where
  mensagem : Option String := none
  pergunta : Option String := none
  campo_destino : Option String := none
  tipo_campo : Option FieldType := none
  opcoes : Option (List String) := none
  validacao : Option String := none
  campo : Option String := none
  operador : Option Operator := none
  valor : Option JValue := none
  tipo_acao : Option ActionType := none
  url : Option String := none
  method : Option String := none
  headers : Option (List (String × String)) := none
  body : Option (List (String × JValue)) := none
  novo_status_id : Option Int := none
  tags : Option (List String) := none
  motivo : Option String := none
  mensagem_cliente : Option String := none
  notificar_equipe : Option Bool := none
  intervalos : Option (List Int) := none
  mensagens : Option (List String) := none

/-- FlowNode from src/frontend/src/types/index.ts. The TypeScript field is
declared type: NodeType, but the running code stores tags outside that union
through implicit casts (the editor creates nodes typed NOME, EMAIL, ... and
the component registry also accepts SWITCH, PARALLEL, END), so the embedding
keeps the runtime representation: a string tag. -/
structure FlowNode where
  id : String
  type : String
  name : String
  config : NodeConfig
  next_node_id : Option String := none
  true_node_id : Option String := none
  false_node_id : Option String := none
  position : Option Position := none

/-- FlowEdge from src/frontend/src/types/index.ts. -/
structure FlowEdge where
  id : String
  source : String
  target : String
  label : Option String := none
deriving DecidableEq, Repr

/-- FlowConfig from src/frontend/src/types/index.ts: the persisted Flow
Document. -/
structure FlowConfig where
  nodes : List FlowNode
  edges : List FlowEdge
  start_node_id : String
  version : String

/-- FlowNodeData from src/frontend/src/types/flow.types.ts (the data payload
of an editor node); the tag is a string for the same reason as FlowNode.type. -/
structure FlowNodeData where
  label : String
  type : String
  config : NodeConfig

/-- The reactflow node as the code reads and writes it (CustomNode): id, the
component type string, a position and the data payload. -/
structure CustomNode where
  id : String
  type : String
  position : Position
  data : FlowNodeData

/-- The reactflow edge as the code reads and writes it (CustomEdge): id,
endpoints, optional handles, optional label, plus the display fields the
conversions set (edge component type, animated). -/
structure CustomEdge where
  id : String
  source : String
  target : String
  sourceHandle : Option String := none
  targetHandle : Option String := none
  label : Option String := none
  type : Option String := none
  animated : Bool := false

/-- JavaScript falsiness of an optional string: undefined and "" are falsy. -/
def strFalsy : Option String → Bool
  | none => true
  | some s => s == ""

/-- flowNodeToReactFlow from src/frontend/src/types/flow.types.ts:
position: node.position || \x7b x: 0, y: 0 \x7d. -/
def flowNodeToReactFlow (node : FlowNode) : CustomNode :=
  { id := node.id
    type := "customNode"
    position := node.position.getD ⟨0, 0⟩
    data :=
      { label := node.name
        type := node.type
        config := node.config } }

/-- flowEdgeToReactFlow from src/frontend/src/types/flow.types.ts. -/
def flowEdgeToReactFlow (edge : FlowEdge) : CustomEdge :=
  { id := edge.id
    source := edge.source
    target := edge.target
    label := edge.label
    type := some "smoothstep"
    animated := true }

/-- Predicate of the nextEdge callback in reactFlowToFlowConfig:
!e.label || e.label === 'default'. -/
def isNextLabel (l : Option String) : Bool :=
  strFalsy l || l == some "default"

/-- Predicate of the trueEdge callback in reactFlowToFlowConfig:
e.label === 'true' || e.label === 'sim'. -/
def isTrueLabel (l : Option String) : Bool :=
  l == some "true" || l == some "sim"

/-- Predicate of the falseEdge callback in reactFlowToFlowConfig:
e.label === 'false' || e.label === 'nao'. -/
def isFalseLabel (l : Option String) : Bool :=
  l == some "false" || l == some "nao"

/-- Body of the nodes.map closure inside reactFlowToFlowConfig
(src/frontend/src/types/flow.types.ts): filter the outgoing edges, pick the
first next/true/false candidate with find, and rebuild the FlowNode. -/
def reactFlowNodeOut (edges : List CustomEdge) (node : CustomNode) : FlowNode :=
  let outgoingEdges := edges.filter (fun e => e.source == node.id)
  let nextEdge := outgoingEdges.find? (fun e => isNextLabel e.label)
  let trueEdge := outgoingEdges.find? (fun e => isTrueLabel e.label)
  let falseEdge := outgoingEdges.find? (fun e => isFalseLabel e.label)
  { id := node.id
    type := node.data.type
    name := node.data.label
    config := node.data.config
    next_node_id := nextEdge.map CustomEdge.target
    true_node_id := trueEdge.map CustomEdge.target
    false_node_id := falseEdge.map CustomEdge.target
    position := some node.position }

/-- reactFlowToFlowConfig from src/frontend/src/types/flow.types.ts. -/
def reactFlowToFlowConfig (nodes : List CustomNode) (edges : List CustomEdge)
    (startNodeId : String) : FlowConfig :=
  { nodes := nodes.map (reactFlowNodeOut edges)
    edges := edges.map (fun edge =>
      { id := edge.id
        source := edge.source
        target := edge.target
        label := edge.label })
    start_node_id := startNodeId
    version := "1.0" }

/-- Edge conversion performed by loadFlowConfig in
src/frontend/src/app/dashboard/flow-builder/page.tsx: labels true/sim map to
the true source handle, false/nao to the false handle. -/
def loadFlowEdge (edge : FlowEdge) : CustomEdge :=
  { id := edge.id
    source := edge.source
    target := edge.target
    sourceHandle :=
      if edge.label == some "true" || edge.label == some "sim" then some "true"
      else if edge.label == some "false" || edge.label == some "nao" then some "false"
      else none
    label := edge.label
    type := some "smoothstep"
    animated := true }

/-- Body of the nodes.map closure inside saveFlow
(src/frontend/src/app/dashboard/flow-builder/page.tsx): same shape as
reactFlowNodeOut but branch selection is by sourceHandle, not label. -/
def saveFlowNodeOut (edges : List CustomEdge) (node : CustomNode) : FlowNode :=
  let outgoingEdges := edges.filter (fun e => e.source == node.id)
  let nextEdge := outgoingEdges.find? (fun e => strFalsy e.sourceHandle)
  let trueEdge := outgoingEdges.find? (fun e => e.sourceHandle == some "true")
  let falseEdge := outgoingEdges.find? (fun e => e.sourceHandle == some "false")
  { id := node.id
    type := node.data.type
    name := node.data.label
    config := node.data.config
    next_node_id := nextEdge.map CustomEdge.target
    true_node_id := trueEdge.map CustomEdge.target
    false_node_id := falseEdge.map CustomEdge.target
    position := some node.position }

/-- The FlowConfig literal saveFlow builds once a start node id is settled. -/
def saveFlowConfigOf (nodes : List CustomNode) (edges : List CustomEdge)
    (finalStartNodeId : String) : FlowConfig :=
  { nodes := nodes.map (saveFlowNodeOut edges)
    edges := edges.map (fun edge =>
      { id := edge.id
        source := edge.source
        target := edge.target
        label := edge.label })
    start_node_id := finalStartNodeId
    version := "1.0" }

/-- JavaScript a || b on optional strings ("" falsy). -/
def jsOrStr (a b : Option String) : Option String :=
  match a with
  | none => b
  | some s => if s == "" then b else some s

/-- saveFlow from src/frontend/src/app/dashboard/flow-builder/page.tsx,
as the state-to-request function: the start node falls back to the first
GREETING node, then to the first node; when the settled id is still falsy the
function alerts and returns without building a request (none). -/
def saveFlow (startNodeId : String) (nodes : List CustomNode)
    (edges : List CustomEdge) : Option FlowConfig :=
  let finalStartNodeId : Option String :=
    if startNodeId == "" then
      jsOrStr ((nodes.find? (fun n => n.data.type == "GREETING")).map CustomNode.id)
        ((nodes.head?).map CustomNode.id)
    else some startNodeId
  match finalStartNodeId with
  | none => none
  | some s => if s == "" then none else some (saveFlowConfigOf nodes edges s)

/-- deleteNode from src/frontend/src/app/dashboard/flow-builder/page.tsx:
drop the node and every edge touching it. -/
def deleteNode (nodeId : String) (nodes : List CustomNode)
    (edges : List CustomEdge) : List CustomNode × List CustomEdge :=
  (nodes.filter (fun node => !(node.id == nodeId)),
   edges.filter (fun edge => !(edge.source == nodeId) && !(edge.target == nodeId)))

/-- onNodesDelete from src/frontend/src/app/dashboard/flow-builder/page.tsx:
the app callback removes every edge incident to a deleted node (reactflow
itself removes the nodes). -/
def onNodesDelete (deleted : List CustomNode)
    (edges : List CustomEdge) : List CustomEdge :=
  edges.filter (fun edge =>
    !(deleted.any (fun node => node.id == edge.source || node.id == edge.target)))

/-- The node set reactflow leaves behind after deleting the given nodes,
paired with onNodesDelete above. -/
def remainingNodes (deleted : List CustomNode)
    (nodes : List CustomNode) : List CustomNode :=
  nodes.filter (fun node => !(deleted.any (fun d => d.id == node.id)))

/-- The keys of the nodeTypes component registry in the flow-builder nodes
module (uppercase entries plus the lowercase aliases), in declaration order. -/
def nodeTypesKeys : List String :=
  ["GREETING", "QUESTION", "CONDITION", "SWITCH", "PARALLEL", "MESSAGE",
   "ACTION", "HANDOFF", "FOLLOWUP", "NOME", "EMAIL", "TELEFONE", "CIDADE",
   "INTERESSE", "ORCAMENTO", "URGENCIA", "AGENDAMENTO", "END",
   "greeting", "question", "condition", "switch", "parallel", "message",
   "action", "handoff", "followup"]

/-- Modelled from the spec: a data-bag value — the per-conversation collected
fields hold strings, numbers, or booleans (spec section 3, Conversation
State). The backend Flow Interpreter holding this type is not among the
repository's source files. -/
inductive DataValue where
  | dstr (s : String)
  | dnum (n : Int)
  | dbool (b : Bool)
deriving DecidableEq, Repr

/-- Modelled from the spec: the data bag, a mapping from field name to
collected value, embedded as an association list. -/
def bagGet (bag : List (String × DataValue)) (field : String) : Option DataValue :=
  (bag.find? (fun kv => kv.1 == field)).map Prod.snd

/-- Value of a decimal digit character, none for anything else. -/
def digitVal (c : Char) : Option Nat :=
  if '0' ≤ c ∧ c ≤ '9' then some (c.toNat - '0'.toNat) else none

/-- Parse a non-empty all-digit character list as a natural number. -/
def parseDigits : List Char → Option Nat
  | [] => none
  | cs => cs.foldl (fun acc c =>
      match acc, digitVal c with
      | some n, some d => some (n * 10 + d)
      | _, _ => none) (some 0)

/-- Modelled from the spec: parsing a string as a number for the numeric
comparison operators (an optional sign followed by digits; numbers are
integral in this embedding). -/
def parseIntStr (s : String) : Option Int :=
  match s.data with
  | '-' :: rest => (parseDigits rest).map (fun n => -(n : Int))
  | cs => (parseDigits cs).map (fun n => (n : Int))

/-- Modelled from the spec: the numeric view of a data-bag value — a number
is itself, a string is parsed, anything else does not parse. -/
def toNumber : Option DataValue → Option Int
  | some (.dnum n) => some n
  | some (.dstr s) => parseIntStr s
  | _ => none

/-- Modelled from the spec: the string view of a data-bag value used by the
equality/containment operators; a missing value reads as the empty string. -/
def asString : Option DataValue → String
  | none => ""
  | some (.dstr s) => s
  | some (.dnum n) => toString n
  | some (.dbool b) => if b then "true" else "false"

/-- Substring containment on strings (the contains operator). -/
def strContains (hay needle : String) : Bool :=
  needle == "" || (hay.splitOn needle).length ≥ 2

/-- Modelled from the spec: is_empty and exists must treat a missing key and
an empty string identically (spec section 4.2, condition kind). -/
def isEmptyVal : Option DataValue → Bool
  | none => true
  | some (.dstr s) => s == ""
  | some _ => false

/-- Modelled from the spec: condition-operator evaluation of the backend Flow
Interpreter, absent from the repository's source files. Numeric operators
(greater_than, less_than) compare numerically when both sides parse as
numbers and otherwise fail closed to false — the reading fixed by the spec's
testable property that field value "abc" against comparison value 5 takes
the false edge; the remaining operators compare the string views. -/
def evalOperator (op : Operator) (fieldVal cmpVal : Option DataValue) : Bool :=
  match op with
  | .equals => asString fieldVal == asString cmpVal
  | .not_equals => !(asString fieldVal == asString cmpVal)
  | .contains => strContains (asString fieldVal) (asString cmpVal)
  | .not_contains => !(strContains (asString fieldVal) (asString cmpVal))
  | .greater_than =>
      match toNumber fieldVal, toNumber cmpVal with
      | some a, some b => a > b
      | _, _ => false
  | .less_than =>
      match toNumber fieldVal, toNumber cmpVal with
      | some a, some b => a < b
      | _, _ => false
  | .is_empty => isEmptyVal fieldVal
  | .is_not_empty => !(isEmptyVal fieldVal)
  | .«exists» => !(isEmptyVal fieldVal)

/-- Modelled from the spec: a condition node evaluates its operator against
the data bag at its configured field and the configured comparison value. -/
def evaluateCondition (bag : List (String × DataValue)) (campo : String)
    (op : Operator) (valor : Option DataValue) : Bool :=
  evalOperator op (bagGet bag campo) valor

/-- Modelled from the spec: after evaluating a condition the Interpreter
resolves the outgoing edge discriminated "true" or "false" accordingly. -/
def resolveConditionNext (edges : List FlowEdge) (nodeId : String)
    (result : Bool) : Option String :=
  ((edges.filter (fun e => e.source == nodeId)).find?
      (fun e => e.label == some (if result then "true" else "false"))).map
    FlowEdge.target

/-- Problem codes of the Flow Document validator's structured errors, one per
check class of spec section 4.1. -/
inductive ProblemCode where
  | unknown_source
  | unknown_target
  | unknown_start
  | bad_condition_label
  | dup_condition_branch
  | dup_switch_case
  | dup_switch_default
  | multiple_next
  | unguarded_cycle
deriving DecidableEq, Repr

/-- One structured validation error: the offending node-or-edge id with a
problem code. -/
structure ValidationError where
  elemId : String
  code : ProblemCode
deriving DecidableEq, Repr

/-- Node kinds at which a conversation can pause or terminate (end, handoff,
or a question/condition awaiting external input, the question specializations
included) — the guard the cycle check looks for. -/
def pausingType (t : String) : Bool :=
  t == "END" || t == "HANDOFF" || t == "QUESTION" || t == "CONDITION" ||
  t == "NOME" || t == "EMAIL" || t == "TELEFONE" || t == "CIDADE" ||
  t == "INTERESSE" || t == "ORCAMENTO" || t == "URGENCIA" || t == "AGENDAMENTO"

/-- Successor node ids of a node in a Flow Document. -/
def succIds (doc : FlowConfig) (nodeId : String) : List String :=
  (doc.edges.filter (fun e => e.source == nodeId)).map FlowEdge.target

/-- Successor node ids that exist in the document and are not pausing kinds. -/
def npSuccIds (doc : FlowConfig) (nodeId : String) : List String :=
  (succIds doc nodeId).filter (fun t =>
    (doc.nodes.any (fun n => n.id == t && !(pausingType n.type))))

/-- One closure step: add every successor (by the given successor map) of the
current id set. -/
def stepClosure (next : String → List String) (ids : List String) : List String :=
  (ids ++ ids.foldr (fun i acc => next i ++ acc) []).dedup

/-- Fuelled iteration of stepClosure. -/
def closeIds (next : String → List String) : Nat → List String → List String
  | 0, ids => ids
  | n + 1, ids => closeIds next n (stepClosure next ids)

/-- Node ids reachable from the start node. -/
def reachableFromStart (doc : FlowConfig) : List String :=
  closeIds (succIds doc) (doc.nodes.length + 1) [doc.start_node_id]

/-- Whether a non-pausing node closes a cycle through non-pausing nodes. -/
def onUnguardedCycle (doc : FlowConfig) (n : FlowNode) : Bool :=
  !(pausingType n.type) &&
  (closeIds (npSuccIds doc) (doc.nodes.length + 1) (npSuccIds doc n.id)).contains n.id

/-- Check class 1 of the validator: every edge endpoint must name an existing
node; one structured error per dangling endpoint. -/
def refErrsOf (doc : FlowConfig) : List ValidationError :=
  (doc.edges.filter (fun e => !((doc.nodes.map FlowNode.id).contains e.source))).map
    (fun e => ⟨e.id, ProblemCode.unknown_source⟩) ++
  (doc.edges.filter (fun e => !((doc.nodes.map FlowNode.id).contains e.target))).map
    (fun e => ⟨e.id, ProblemCode.unknown_target⟩)

/-- Check class 2: the start pointer must name an existing node. -/
def startErrsOf (doc : FlowConfig) : List ValidationError :=
  if (doc.nodes.map FlowNode.id).contains doc.start_node_id then []
  else [⟨doc.start_node_id, ProblemCode.unknown_start⟩]

/-- Check class 3: a condition node's outgoing discriminators are drawn from
true/false, at most once each. -/
def condErrsOf (doc : FlowConfig) : List ValidationError :=
  (doc.nodes.filter (fun n => n.type == "CONDITION")).foldr (fun n acc =>
    let out := doc.edges.filter (fun e => e.source == n.id)
    (out.filter (fun e =>
        !(e.label == some "true") && !(e.label == some "false"))).map
      (fun e => ⟨e.id, ProblemCode.bad_condition_label⟩) ++
    (if (out.filter (fun e => e.label == some "true")).length ≥ 2 ∨
        (out.filter (fun e => e.label == some "false")).length ≥ 2 then
      [⟨n.id, ProblemCode.dup_condition_branch⟩] else []) ++ acc) []

/-- Check class 4: a switch node has no two outgoing edges with the same case
discriminator nor two defaults. -/
def switchErrsOf (doc : FlowConfig) : List ValidationError :=
  (doc.nodes.filter (fun n => n.type == "SWITCH")).foldr (fun n acc =>
    let out := doc.edges.filter (fun e => e.source == n.id)
    (if (out.map FlowEdge.label).dedup.length ≠ (out.map FlowEdge.label).length then
      [⟨n.id, ProblemCode.dup_switch_case⟩] else []) ++
    (if (out.filter (fun e => e.label == some "default")).length ≥ 2 then
      [⟨n.id, ProblemCode.dup_switch_default⟩] else []) ++ acc) []

/-- Check class 5: a single-output node has at most one undiscriminated
outgoing edge. -/
def singleErrsOf (doc : FlowConfig) : List ValidationError :=
  (doc.nodes.filter (fun n =>
      !(n.type == "CONDITION") && !(n.type == "SWITCH") &&
      !(n.type == "PARALLEL"))).foldr (fun n acc =>
    (if ((doc.edges.filter (fun e => e.source == n.id)).filter
          (fun e => strFalsy e.label)).length ≥ 2 then
      [⟨n.id, ProblemCode.multiple_next⟩] else []) ++ acc) []

/-- Check class 6: no cycle of non-pausing nodes reachable from the start. -/
def cycleErrsOf (doc : FlowConfig) : List ValidationError :=
  (doc.nodes.filter (fun n =>
      (reachableFromStart doc).contains n.id && onUnguardedCycle doc n)).map
    (fun n => ⟨n.id, ProblemCode.unguarded_cycle⟩)

/-- Modelled from the spec: the Flow Document validator of section 4.1, part
of the backend executor absent from the repository's source files. It checks
the six classes in order, fails fast on the first class that has an instance,
and within that class reports every offending element as a structured
(id, problem code) pair; an empty list means valid. -/
def validateFlow (doc : FlowConfig) : List ValidationError :=
  if !(refErrsOf doc).isEmpty then refErrsOf doc
  else if !(startErrsOf doc).isEmpty then startErrsOf doc
  else if !(condErrsOf doc).isEmpty then condErrsOf doc
  else if !(switchErrsOf doc).isEmpty then switchErrsOf doc
  else if !(singleErrsOf doc).isEmpty then singleErrsOf doc
  else cycleErrsOf doc

/-- Round trip of a Flow Document through the editor representation: convert
its nodes and edges with flowNodeToReactFlow/flowEdgeToReactFlow and convert
back with reactFlowToFlowConfig using the same start node id. -/
def roundTrip (doc : FlowConfig) : FlowConfig :=
  reactFlowToFlowConfig (doc.nodes.map flowNodeToReactFlow)
    (doc.edges.map flowEdgeToReactFlow) doc.start_node_id

/-- The next pointer reactFlowToFlowConfig would derive for a node id from the
document's own edges. -/
def derivedNext (edges : List FlowEdge) (nodeId : String) : Option String :=
  ((edges.filter (fun e => e.source == nodeId)).find?
      (fun e => isNextLabel e.label)).map FlowEdge.target

/-- The true pointer reactFlowToFlowConfig would derive for a node id from the
document's own edges. -/
def derivedTrue (edges : List FlowEdge) (nodeId : String) : Option String :=
  ((edges.filter (fun e => e.source == nodeId)).find?
      (fun e => isTrueLabel e.label)).map FlowEdge.target

/-- The false pointer reactFlowToFlowConfig would derive for a node id from
the document's own edges. -/
def derivedFalse (edges : List FlowEdge) (nodeId : String) : Option String :=
  ((edges.filter (fun e => e.source == nodeId)).find?
      (fun e => isFalseLabel e.label)).map FlowEdge.target

/-- The seven NodeType tags, enumerated. -/
def allNodeTypes : List NodeType :=
  [.GREETING, .QUESTION, .CONDITION, .MESSAGE, .ACTION, .HANDOFF, .FOLLOWUP]

/-- Two editor nodes agreeing on everything except possibly the display
label. -/
def sameButLabel (a b : CustomNode) : Prop :=
  a.id = b.id ∧ a.type = b.type ∧ a.position = b.position ∧
  a.data.type = b.data.type ∧ a.data.config = b.data.config

/-- Two document nodes agreeing on everything except possibly the name. -/
def sameButName (a b : FlowNode) : Prop :=
  a.id = b.id ∧ a.type = b.type ∧ a.config = b.config ∧
  a.next_node_id = b.next_node_id ∧ a.true_node_id = b.true_node_id ∧
  a.false_node_id = b.false_node_id ∧ a.position = b.position

/-- A Flow Document whose single node has no position recorded. -/
def sampleDocNoPos : FlowConfig :=
  { nodes := [{ id := "a", type := "MESSAGE", name := "A", config := {} }]
    edges := []
    start_node_id := "a"
    version := "1.0" }

/-- A Flow Document whose single node carries a next pointer no edge
backs. -/
def sampleDocStalePtr : FlowConfig :=
  { nodes := [{ id := "a", type := "MESSAGE", name := "A", config := {},
                next_node_id := some "z", position := some ⟨1, 2⟩ }]
    edges := []
    start_node_id := "a"
    version := "1.0" }

/-- A well-formed two-node Flow Document: positions present and branch
pointers exactly those its edges induce. -/
def sampleDocGood : FlowConfig :=
  { nodes := [{ id := "a", type := "GREETING", name := "A", config := {},
                next_node_id := some "b", position := some ⟨1, 2⟩ },
              { id := "b", type := "MESSAGE", name := "B", config := {},
                position := some ⟨3, 4⟩ }]
    edges := [{ id := "e", source := "a", target := "b" }]
    start_node_id := "a"
    version := "1.0" }

/-- An editor message node n used to exercise ambiguous-edge resolution. -/
def sampleNodeN : CustomNode :=
  { id := "n", type := "customNode", position := ⟨0, 0⟩,
    data := { label := "N", type := "MESSAGE", config := {} } }

/-- An outgoing edge of n discriminated true (label and source handle). -/
def sampleEdgeT : CustomEdge :=
  { id := "e0", source := "n", target := "t", label := some "true",
    sourceHandle := some "true" }

/-- The first undiscriminated outgoing edge of n, to a. -/
def sampleEdgeA : CustomEdge :=
  { id := "e1", source := "n", target := "a" }

/-- A second undiscriminated outgoing edge of n, to b. -/
def sampleEdgeB : CustomEdge :=
  { id := "e2", source := "n", target := "b" }

/-- A Flow Document whose single edge references node ids that do not
exist. -/
def sampleDocDangling : FlowConfig :=
  { nodes := []
    edges := [{ id := "e", source := "x", target := "y" }]
    start_node_id := "x"
    version := "1.0" }

attribute [ext] FlowNode

/-- A find over a concatenation returns the marked element when everything
before it fails the predicate and it passes. -/
theorem find?_append_first {α : Type} (p : α → Bool) (pre post : List α)
    (a : α) (ha : p a = true) (hpre : ∀ x ∈ pre, p x = false) :
    (pre ++ a :: post).find? p = some a := by
  induction pre with
  | nil => simp [List.find?_cons_of_pos, ha]
  | cons b t ih =>
      have hb : p b = false := hpre b (by simp)
      rw [List.cons_append, List.find?_cons_of_neg _ (by simp [hb])]
      exact ih (fun x hx => hpre x (by simp [hx]))

/-- find over a mapped list is the mapped find over the composed predicate. -/
theorem find?_map_comm {α β : Type} (f : α → β) (p : β → Bool) (l : List α) :
    (l.map f).find? p = (l.find? (fun x => p (f x))).map f := by
  induction l with
  | nil => rfl
  | cons a t ih =>
      by_cases h : p (f a) = true
      · simp [List.find?, h]
      · simp only [List.map_cons, List.find?] at *
        simp [h, ih]

/-- filter over a mapped list is the mapped filter over the composed
predicate. -/
theorem filter_map_comm {α β : Type} (f : α → β) (p : β → Bool) (l : List α) :
    (l.map f).filter p = (l.filter (fun x => p (f x))).map f := by
  induction l with
  | nil => rfl
  | cons a t ih =>
      by_cases h : p (f a) = true
      · simp [List.filter_cons, h, ih]
      · simp [List.filter_cons, h, ih]

/-- A find over a filtered concatenation returns the marked element when it
passes both predicates and everything before it that passes the filter fails
the find predicate. -/
theorem find?_filter_append_first {α : Type} (q p : α → Bool)
    (pre post : List α) (a : α) (hq : q a = true) (hp : p a = true)
    (hpre : ∀ x ∈ pre, q x = true → p x = false) :
    ((pre ++ a :: post).filter q).find? p = some a := by
  rw [List.filter_append, List.filter_cons_of_pos hq]
  exact find?_append_first _ _ _ _ hp (fun x hx =>
    hpre x (List.mem_filter.mp hx).1 (List.mem_filter.mp hx).2)

/-- Whenever saveFlow issues a save, the persisted nodes are exactly the
editor nodes converted by the saveFlowNodeOut closure over the given
edges. -/
theorem saveFlow_some_shape :
    ∀ (s : String) (nodes : List CustomNode) (edges : List CustomEdge)
      (cfg : FlowConfig), saveFlow s nodes edges = some cfg →
      cfg.nodes = nodes.map (saveFlowNodeOut edges) := by
  intro s nodes edges cfg hcfg
  by_cases hs : s = ""
  · subst hs
    rw [saveFlow] at hcfg
    simp only [beq_self_eq_true, if_true] at hcfg
    rcases hj : jsOrStr
        ((nodes.find? (fun n => n.data.type == "GREETING")).map CustomNode.id)
        ((nodes.head?).map CustomNode.id) with _ | s'
    · rw [hj] at hcfg
      simp at hcfg
    · rw [hj] at hcfg
      by_cases hs' : s' = ""
      · subst hs'
        simp at hcfg
      · simp [hs'] at hcfg
        subst hcfg
        rfl
  · simp [saveFlow, hs] at hcfg
    subst hcfg
    rfl

/-- C4: for a condition node with operator greater_than, a data-bag field
value "10" against comparison value 5 evaluates true and resolves the edge
discriminated "true"; field value "abc" against 5 fails the numeric parse,
fails closed to false, and resolves the edge discriminated "false"; evaluation
is a total function, so neither case can crash. -/
theorem evalCondition_greater_than_coercion :
    ∀ (bag1 bag2 : List (String × DataValue)) (campo : String)
      (edges : List FlowEdge) (nodeId : String),
      bagGet bag1 campo = some (DataValue.dstr "10") →
      bagGet bag2 campo = some (DataValue.dstr "abc") →
      evaluateCondition bag1 campo .greater_than (some (.dnum 5)) = true ∧
      evaluateCondition bag2 campo .greater_than (some (.dnum 5)) = false ∧
      resolveConditionNext edges nodeId
          (evaluateCondition bag1 campo .greater_than (some (.dnum 5)))
        = ((edges.filter (fun e => e.source == nodeId)).find?
            (fun e => e.label == some "true")).map FlowEdge.target ∧
      resolveConditionNext edges nodeId
          (evaluateCondition bag2 campo .greater_than (some (.dnum 5)))
        = ((edges.filter (fun e => e.source == nodeId)).find?
            (fun e => e.label == some "false")).map FlowEdge.target := by
  intro bag1 bag2 campo edges nodeId h1 h2
  have e1 : evaluateCondition bag1 campo .greater_than (some (.dnum 5)) = true := by
    unfold evaluateCondition
    rw [h1]
    decide
  have e2 : evaluateCondition bag2 campo .greater_than (some (.dnum 5)) = false := by
    unfold evaluateCondition
    rw [h2]
    decide
  refine ⟨e1, e2, ?_, ?_⟩
  · rw [e1]
    rfl
  · rw [e2]
    rfl

/-- C4 witness: the concrete condition of the spec's testable property, on a
bag holding "10" (true edge taken) and one holding "abc" (false edge taken). -/
theorem evalCondition_greater_than_coercion_witness :
    evaluateCondition [("valor", DataValue.dstr "10")] "valor"
        .greater_than (some (.dnum 5)) = true ∧
    evaluateCondition [("valor", DataValue.dstr "abc")] "valor"
        .greater_than (some (.dnum 5)) = false ∧
    resolveConditionNext
        [{ id := "e1", source := "c", target := "T", label := some "true" },
         { id := "e2", source := "c", target := "F", label := some "false" }] "c"
        (evaluateCondition [("valor", DataValue.dstr "10")] "valor"
          .greater_than (some (.dnum 5)))
      = (([({ id := "e1", source := "c", target := "T", label := some "true" } :
            FlowEdge),
           { id := "e2", source := "c", target := "F", label := some "false" }].filter
            (fun e => e.source == "c")).find?
          (fun e => e.label == some "true")).map FlowEdge.target ∧
    resolveConditionNext
        [{ id := "e1", source := "c", target := "T", label := some "true" },
         { id := "e2", source := "c", target := "F", label := some "false" }] "c"
        (evaluateCondition [("valor", DataValue.dstr "abc")] "valor"
          .greater_than (some (.dnum 5)))
      = (([({ id := "e1", source := "c", target := "T", label := some "true" } :
            FlowEdge),
           { id := "e2", source := "c", target := "F", label := some "false" }].filter
            (fun e => e.source == "c")).find?
          (fun e => e.label == some "false")).map FlowEdge.target :=
  evalCondition_greater_than_coercion
    [("valor", DataValue.dstr "10")] [("valor", DataValue.dstr "abc")] "valor"
    [{ id := "e1", source := "c", target := "T", label := some "true" },
     { id := "e2", source := "c", target := "F", label := some "false" }] "c"
    (by decide) (by decide)

/-- C6 counterexample: the component registry keys include SWITCH, PARALLEL
and END, but no tag of the NodeType union renders to any of those strings
(allNodeTypes enumerates the union completely, see the amended theorem). -/
theorem nodeType_missing_switch_parallel_end :
    (nodeTypesKeys.contains "SWITCH" = true ∧
     nodeTypesKeys.contains "PARALLEL" = true ∧
     nodeTypesKeys.contains "END" = true) ∧
    ((allNodeTypes.map NodeType.toStr).contains "SWITCH" = false ∧
     (allNodeTypes.map NodeType.toStr).contains "PARALLEL" = false ∧
     (allNodeTypes.map NodeType.toStr).contains "END" = false) := by
  decide

/-- C6 amended: the NodeType union is closed over exactly GREETING, QUESTION,
CONDITION, MESSAGE, ACTION, HANDOFF and FOLLOWUP — every tag is in
allNodeTypes and none is switch, parallel or end — while the flow-builder
component registry does key SWITCH, PARALLEL and END (and the question
specializations) as node components. -/
theorem nodeType_closed_tag_set :
    ∀ t : NodeType,
      t ∈ allNodeTypes ∧
      (t.toStr ≠ "SWITCH" ∧ t.toStr ≠ "PARALLEL" ∧ t.toStr ≠ "END") ∧
      ("SWITCH" ∈ nodeTypesKeys ∧ "PARALLEL" ∈ nodeTypesKeys ∧
       "END" ∈ nodeTypesKeys ∧ "NOME" ∈ nodeTypesKeys) := by
  intro t
  refine ⟨?_, ?_, by decide⟩
  · cases t <;> simp [allNodeTypes]
  · cases t <;> simp [NodeType.toStr]

/-- C9: deleting nodes leaves no dangling edges — after deleteNode every
remaining edge's endpoints name remaining nodes, and after onNodesDelete
every remaining edge's endpoints name nodes reactflow keeps, assuming every
edge endpoint named an existing node beforehand. -/
theorem delete_leaves_no_dangling_edges :
    ∀ (nodes : List CustomNode) (edges : List CustomEdge) (nodeId : String)
      (deleted : List CustomNode),
      (∀ e ∈ edges,
        (∃ n ∈ nodes, n.id = e.source) ∧ (∃ n ∈ nodes, n.id = e.target)) →
      (∀ e ∈ (deleteNode nodeId nodes edges).2,
        (∃ n ∈ (deleteNode nodeId nodes edges).1, n.id = e.source) ∧
        (∃ n ∈ (deleteNode nodeId nodes edges).1, n.id = e.target)) ∧
      (∀ e ∈ onNodesDelete deleted edges,
        (∃ n ∈ remainingNodes deleted nodes, n.id = e.source) ∧
        (∃ n ∈ remainingNodes deleted nodes, n.id = e.target)) := by
  intro nodes edges nodeId deleted h
  constructor
  · intro e he
    rw [deleteNode, List.mem_filter] at he
    obtain ⟨hmem, hpred⟩ := he
    simp only [Bool.and_eq_true, Bool.not_eq_true', beq_eq_false_iff_ne] at hpred
    obtain ⟨⟨ns, hns, hnse⟩, ⟨nt, hnt, hnte⟩⟩ := h e hmem
    refine ⟨⟨ns, ?_, hnse⟩, ⟨nt, ?_, hnte⟩⟩
    · rw [deleteNode, List.mem_filter]
      exact ⟨hns, by simp [hnse, hpred.1]⟩
    · rw [deleteNode, List.mem_filter]
      exact ⟨hnt, by simp [hnte, hpred.2]⟩
  · intro e he
    rw [onNodesDelete, List.mem_filter] at he
    obtain ⟨hmem, hpred⟩ := he
    simp only [Bool.not_eq_true', List.any_eq_false] at hpred
    have hp : ∀ d ∈ deleted, ¬d.id = e.source ∧ ¬d.id = e.target := by
      intro d hd
      have h2 := hpred d hd
      simp only [Bool.or_eq_true, beq_iff_eq, not_or] at h2
      exact h2
    obtain ⟨⟨ns, hns, hnse⟩, ⟨nt, hnt, hnte⟩⟩ := h e hmem
    refine ⟨⟨ns, ?_, hnse⟩, ⟨nt, ?_, hnte⟩⟩
    · rw [remainingNodes, List.mem_filter]
      refine ⟨hns, ?_⟩
      simp only [Bool.not_eq_true', List.any_eq_false]
      intro d hd
      simp only [beq_iff_eq, hnse]
      exact (hp d hd).1
    · rw [remainingNodes, List.mem_filter]
      refine ⟨hnt, ?_⟩
      simp only [Bool.not_eq_true', List.any_eq_false]
      intro d hd
      simp only [beq_iff_eq, hnte]
      exact (hp d hd).2

/-- C9 witness: deleting node a from the two-node graph a, b with the edges
a-to-b and b-to-a leaves only edges between surviving nodes (here: none are
left dangling), both via deleteNode and via onNodesDelete. -/
theorem delete_leaves_no_dangling_edges_witness :
    (∀ e ∈ (deleteNode "a"
        [{ id := "a", type := "customNode", position := ⟨0, 0⟩,
           data := { label := "A", type := "GREETING", config := {} } },
         { id := "b", type := "customNode", position := ⟨0, 0⟩,
           data := { label := "B", type := "MESSAGE", config := {} } }]
        [{ id := "e1", source := "a", target := "b" },
         { id := "e2", source := "b", target := "a" }]).2,
      (∃ n ∈ (deleteNode "a"
        [{ id := "a", type := "customNode", position := ⟨0, 0⟩,
           data := { label := "A", type := "GREETING", config := {} } },
         { id := "b", type := "customNode", position := ⟨0, 0⟩,
           data := { label := "B", type := "MESSAGE", config := {} } }]
        [{ id := "e1", source := "a", target := "b" },
         { id := "e2", source := "b", target := "a" }]).1, n.id = e.source) ∧
      (∃ n ∈ (deleteNode "a"
        [{ id := "a", type := "customNode", position := ⟨0, 0⟩,
           data := { label := "A", type := "GREETING", config := {} } },
         { id := "b", type := "customNode", position := ⟨0, 0⟩,
           data := { label := "B", type := "MESSAGE", config := {} } }]
        [{ id := "e1", source := "a", target := "b" },
         { id := "e2", source := "b", target := "a" }]).1, n.id = e.target)) ∧
    (∀ e ∈ onNodesDelete
        [{ id := "a", type := "customNode", position := ⟨0, 0⟩,
           data := { label := "A", type := "GREETING", config := {} } }]
        [{ id := "e1", source := "a", target := "b" },
         { id := "e2", source := "b", target := "a" }],
      (∃ n ∈ remainingNodes
        [{ id := "a", type := "customNode", position := ⟨0, 0⟩,
           data := { label := "A", type := "GREETING", config := {} } }]
        [{ id := "a", type := "customNode", position := ⟨0, 0⟩,
           data := { label := "A", type := "GREETING", config := {} } },
         { id := "b", type := "customNode", position := ⟨0, 0⟩,
           data := { label := "B", type := "MESSAGE", config := {} } }], n.id = e.source) ∧
      (∃ n ∈ remainingNodes
        [{ id := "a", type := "customNode", position := ⟨0, 0⟩,
           data := { label := "A", type := "GREETING", config := {} } }]
        [{ id := "a", type := "customNode", position := ⟨0, 0⟩,
           data := { label := "A", type := "GREETING", config := {} } },
         { id := "b", type := "customNode", position := ⟨0, 0⟩,
           data := { label := "B", type := "MESSAGE", config := {} } }], n.id = e.target)) :=
  delete_leaves_no_dangling_edges
    [{ id := "a", type := "customNode", position := ⟨0, 0⟩,
       data := { label := "A", type := "GREETING", config := {} } },
     { id := "b", type := "customNode", position := ⟨0, 0⟩,
       data := { label := "B", type := "MESSAGE", config := {} } }]
    [{ id := "e1", source := "a", target := "b" },
     { id := "e2", source := "b", target := "a" }]
    "a"
    [{ id := "a", type := "customNode", position := ⟨0, 0⟩,
       data := { label := "A", type := "GREETING", config := {} } }]
    (by decide)

/-- C10 counterexample: with a start node id still set, saveFlow on a graph
with no nodes at all does issue a save request — it persists a document with
empty nodes — contradicting the claim that no save happens then. -/
theorem saveFlow_empty_graph_still_saves :
    saveFlow "node-5" ([] : List CustomNode) ([] : List CustomEdge)
      = some { nodes := [], edges := [], start_node_id := "node-5",
               version := "1.0" } := rfl

/-- C10 amended: saveFlow never persists an empty start_node_id; when no
start node is set it falls back to the first GREETING node's id, then to the
first node's id; and when the graph has no nodes AND no start node id is set,
no save request is built. -/
theorem saveFlow_start_fallback :
    ∀ (s : String) (nodes : List CustomNode) (edges : List CustomEdge),
      (∀ cfg, saveFlow s nodes edges = some cfg → cfg.start_node_id ≠ "") ∧
      (s = "" → nodes = [] → saveFlow s nodes edges = none) ∧
      (s ≠ "" → saveFlow s nodes edges = some (saveFlowConfigOf nodes edges s)) ∧
      (s = "" →
        ∀ g, nodes.find? (fun n => n.data.type == "GREETING") = some g →
          g.id ≠ "" →
          saveFlow s nodes edges = some (saveFlowConfigOf nodes edges g.id)) ∧
      (s = "" →
        nodes.find? (fun n => n.data.type == "GREETING") = none →
        ∀ n0 rest, nodes = n0 :: rest → n0.id ≠ "" →
          saveFlow s nodes edges = some (saveFlowConfigOf nodes edges n0.id)) := by
  intro s nodes edges
  by_cases hs : s = ""
  · subst hs
    refine ⟨?_, ?_, ?_, ?_, ?_⟩
    · intro cfg hcfg
      rw [saveFlow] at hcfg
      simp only [beq_self_eq_true, if_true] at hcfg
      rcases hj : jsOrStr
          ((nodes.find? (fun n => n.data.type == "GREETING")).map CustomNode.id)
          ((nodes.head?).map CustomNode.id) with _ | s'
      · rw [hj] at hcfg
        simp at hcfg
      · rw [hj] at hcfg
        by_cases hs' : s' = ""
        · subst hs'
          simp at hcfg
        · simp [hs'] at hcfg
          rw [← hcfg]
          exact hs'
    · intro _ hnil
      subst hnil
      rfl
    · intro hne
      exact absurd rfl hne
    · intro _ g hg hgne
      simp [saveFlow, jsOrStr, hg, hgne]
    · intro _ hg n0 rest hnodes hne
      subst hnodes
      simp [saveFlow, jsOrStr, hg, hne]
  · refine ⟨?_, fun h _ => absurd h hs, ?_, fun h => absurd h hs,
      fun h => absurd h hs⟩
    · intro cfg hcfg
      simp [saveFlow, hs] at hcfg
      rw [← hcfg]
      exact hs
    · intro _
      simp [saveFlow, hs]

/-- C10 witness: with no start node set and no nodes at all, saveFlow builds
no request. -/
theorem saveFlow_start_fallback_witness :
    saveFlow "" ([] : List CustomNode) ([] : List CustomEdge) = none :=
  (saveFlow_start_fallback "" [] []).2.1 rfl rfl

/-- C1 counterexample: a source node with two undiscriminated outgoing edges
is not rejected — reactFlowToFlowConfig (and the inline conversion in
saveFlow) still produces a FlowConfig and silently takes the first edge's
target, a, as next_node_id, despite the second candidate b. -/
theorem ambiguous_edges_not_rejected :
    (reactFlowToFlowConfig
        [{ id := "n", type := "customNode", position := ⟨0, 0⟩,
           data := { label := "N", type := "MESSAGE", config := {} } }]
        [{ id := "e1", source := "n", target := "a" },
         { id := "e2", source := "n", target := "b" }] "n").nodes.map
        FlowNode.next_node_id = [some "a"] ∧
    (saveFlow "n"
        [{ id := "n", type := "customNode", position := ⟨0, 0⟩,
           data := { label := "N", type := "MESSAGE", config := {} } }]
        [{ id := "e1", source := "n", target := "a" },
         { id := "e2", source := "n", target := "b" }]).map
        (fun cfg => cfg.nodes.map FlowNode.next_node_id) = some [some "a"] :=
  ⟨rfl, rfl⟩

/-- C1 amended: the build does not reject ambiguous same-discriminator edges;
instead each of the three pointers is resolved to the FIRST outgoing edge, in
edge-list order, whose discriminator matches the pointer's class — whatever
candidates follow it — by reactFlowToFlowConfig (matching on the label:
falsy/default for next, true/sim for true, false/nao for false) and likewise
by every save saveFlow issues (matching on the sourceHandle: falsy for next,
"true" for true, "false" for false). -/
theorem conversion_picks_first_matching_edge :
    ∀ (nodes : List CustomNode) (pre post : List CustomEdge) (e : CustomEdge)
      (s : String) (node : CustomNode),
      node ∈ nodes →
      e.source = node.id →
      ((isNextLabel e.label = true →
          (∀ e2 ∈ pre, e2.source = node.id → isNextLabel e2.label = false) →
          ∃ fn ∈ (reactFlowToFlowConfig nodes (pre ++ e :: post) s).nodes,
            fn.id = node.id ∧ fn.next_node_id = some e.target) ∧
       (isTrueLabel e.label = true →
          (∀ e2 ∈ pre, e2.source = node.id → isTrueLabel e2.label = false) →
          ∃ fn ∈ (reactFlowToFlowConfig nodes (pre ++ e :: post) s).nodes,
            fn.id = node.id ∧ fn.true_node_id = some e.target) ∧
       (isFalseLabel e.label = true →
          (∀ e2 ∈ pre, e2.source = node.id → isFalseLabel e2.label = false) →
          ∃ fn ∈ (reactFlowToFlowConfig nodes (pre ++ e :: post) s).nodes,
            fn.id = node.id ∧ fn.false_node_id = some e.target)) ∧
      ((strFalsy e.sourceHandle = true →
          (∀ e2 ∈ pre, e2.source = node.id → strFalsy e2.sourceHandle = false) →
          ∀ cfg, saveFlow s nodes (pre ++ e :: post) = some cfg →
            ∃ fn ∈ cfg.nodes, fn.id = node.id ∧
              fn.next_node_id = some e.target) ∧
       ((e.sourceHandle == some "true") = true →
          (∀ e2 ∈ pre, e2.source = node.id →
            (e2.sourceHandle == some "true") = false) →
          ∀ cfg, saveFlow s nodes (pre ++ e :: post) = some cfg →
            ∃ fn ∈ cfg.nodes, fn.id = node.id ∧
              fn.true_node_id = some e.target) ∧
       ((e.sourceHandle == some "false") = true →
          (∀ e2 ∈ pre, e2.source = node.id →
            (e2.sourceHandle == some "false") = false) →
          ∀ cfg, saveFlow s nodes (pre ++ e :: post) = some cfg →
            ∃ fn ∈ cfg.nodes, fn.id = node.id ∧
              fn.false_node_id = some e.target)) := by
  intro nodes pre post e s node hmem hsrc
  have hq : (e.source == node.id) = true := by simp [hsrc]
  have hpreq : ∀ p : CustomEdge → Bool,
      (∀ e2 ∈ pre, e2.source = node.id → p e2 = false) →
      ∀ x ∈ pre, (x.source == node.id) = true → p x = false :=
    fun p hp x hx hxq => hp x hx (by simpa using hxq)
  refine ⟨⟨?_, ?_, ?_⟩, ?_, ?_, ?_⟩
  · intro hlab hpre
    refine ⟨reactFlowNodeOut (pre ++ e :: post) node,
      List.mem_map_of_mem _ hmem, rfl, ?_⟩
    show (((pre ++ e :: post).filter (fun x => x.source == node.id)).find?
        (fun x => isNextLabel x.label)).map CustomEdge.target = some e.target
    have hf := find?_filter_append_first
      (fun x : CustomEdge => x.source == node.id)
      (fun x : CustomEdge => isNextLabel x.label)
      pre post e hq hlab (hpreq _ hpre)
    rw [hf]
    rfl
  · intro hlab hpre
    refine ⟨reactFlowNodeOut (pre ++ e :: post) node,
      List.mem_map_of_mem _ hmem, rfl, ?_⟩
    show (((pre ++ e :: post).filter (fun x => x.source == node.id)).find?
        (fun x => isTrueLabel x.label)).map CustomEdge.target = some e.target
    have hf := find?_filter_append_first
      (fun x : CustomEdge => x.source == node.id)
      (fun x : CustomEdge => isTrueLabel x.label)
      pre post e hq hlab (hpreq _ hpre)
    rw [hf]
    rfl
  · intro hlab hpre
    refine ⟨reactFlowNodeOut (pre ++ e :: post) node,
      List.mem_map_of_mem _ hmem, rfl, ?_⟩
    show (((pre ++ e :: post).filter (fun x => x.source == node.id)).find?
        (fun x => isFalseLabel x.label)).map CustomEdge.target = some e.target
    have hf := find?_filter_append_first
      (fun x : CustomEdge => x.source == node.id)
      (fun x : CustomEdge => isFalseLabel x.label)
      pre post e hq hlab (hpreq _ hpre)
    rw [hf]
    rfl
  · intro hlab hpre cfg hcfg
    have hshape := saveFlow_some_shape s nodes (pre ++ e :: post) cfg hcfg
    refine ⟨saveFlowNodeOut (pre ++ e :: post) node, ?_, rfl, ?_⟩
    · rw [hshape]
      exact List.mem_map_of_mem _ hmem
    · show (((pre ++ e :: post).filter (fun x => x.source == node.id)).find?
          (fun x => strFalsy x.sourceHandle)).map CustomEdge.target
        = some e.target
      have hf := find?_filter_append_first
        (fun x : CustomEdge => x.source == node.id)
        (fun x : CustomEdge => strFalsy x.sourceHandle)
        pre post e hq hlab (hpreq _ hpre)
      rw [hf]
      rfl
  · intro hlab hpre cfg hcfg
    have hshape := saveFlow_some_shape s nodes (pre ++ e :: post) cfg hcfg
    refine ⟨saveFlowNodeOut (pre ++ e :: post) node, ?_, rfl, ?_⟩
    · rw [hshape]
      exact List.mem_map_of_mem _ hmem
    · show (((pre ++ e :: post).filter (fun x => x.source == node.id)).find?
          (fun x => x.sourceHandle == some "true")).map CustomEdge.target
        = some e.target
      have hf := find?_filter_append_first
        (fun x : CustomEdge => x.source == node.id)
        (fun x : CustomEdge => x.sourceHandle == some "true")
        pre post e hq hlab (hpreq _ hpre)
      rw [hf]
      rfl
  · intro hlab hpre cfg hcfg
    have hshape := saveFlow_some_shape s nodes (pre ++ e :: post) cfg hcfg
    refine ⟨saveFlowNodeOut (pre ++ e :: post) node, ?_, rfl, ?_⟩
    · rw [hshape]
      exact List.mem_map_of_mem _ hmem
    · show (((pre ++ e :: post).filter (fun x => x.source == node.id)).find?
          (fun x => x.sourceHandle == some "false")).map CustomEdge.target
        = some e.target
      have hf := find?_filter_append_first
        (fun x : CustomEdge => x.source == node.id)
        (fun x : CustomEdge => x.sourceHandle == some "false")
        pre post e hq hlab (hpreq _ hpre)
      rw [hf]
      rfl

/-- C1 witness: among a true-discriminated edge, then an undiscriminated edge
to a, then another undiscriminated edge to b, both reactFlowToFlowConfig and
the document saveFlow persists resolve next_node_id to a, the first matching
candidate. -/
theorem conversion_picks_first_matching_edge_witness :
    (∃ fn ∈ (reactFlowToFlowConfig [sampleNodeN]
        ([sampleEdgeT] ++ sampleEdgeA :: [sampleEdgeB]) "n").nodes,
      fn.id = "n" ∧ fn.next_node_id = some "a") ∧
    (∃ fn ∈ (saveFlowConfigOf [sampleNodeN]
        ([sampleEdgeT] ++ sampleEdgeA :: [sampleEdgeB]) "n").nodes,
      fn.id = "n" ∧ fn.next_node_id = some "a") := by
  constructor
  · exact (conversion_picks_first_matching_edge [sampleNodeN] [sampleEdgeT]
      [sampleEdgeB] sampleEdgeA "n" sampleNodeN (List.mem_singleton_self _)
      rfl).1.1 (by decide) (by decide)
  · exact (conversion_picks_first_matching_edge [sampleNodeN] [sampleEdgeT]
      [sampleEdgeB] sampleEdgeA "n" sampleNodeN (List.mem_singleton_self _)
      rfl).2.1 (by decide) (by decide)
      (saveFlowConfigOf [sampleNodeN]
        ([sampleEdgeT] ++ sampleEdgeA :: [sampleEdgeB]) "n") (by rfl)

/-- C3 counterexample: a condition node whose only outgoing edge carries the
discriminator "sim" — outside the set containing "true" and "false" — IS
accepted as its true branch by reactFlowToFlowConfig, and loadFlowConfig maps
the "sim" label to the true source handle. -/
theorem condition_accepts_sim_label :
    ((reactFlowToFlowConfig
        [{ id := "c", type := "customNode", position := ⟨0, 0⟩,
           data := { label := "Cond", type := "CONDITION",
                     config := { operador := some .equals } } }]
        [{ id := "e1", source := "c", target := "T", label := some "sim" }]
        "c").nodes.map FlowNode.true_node_id = [some "T"]) ∧
    (loadFlowEdge
        { id := "e1", source := "c", target := "T",
          label := some "sim" }).sourceHandle = some "true" :=
  ⟨rfl, rfl⟩

/-- C3 amended: the true branch accepts exactly the discriminators "true" and
"sim" and the false branch exactly "false" and "nao" (first match in edge
order, with no at-most-one enforcement): whenever the built node carries a
true (resp. false) pointer, some outgoing edge with a label in the
corresponding two-element set supplies it. -/
theorem condition_branch_label_sets :
    ∀ (nodes : List CustomNode) (edges : List CustomEdge) (s : String)
      (fn : FlowNode),
      fn ∈ (reactFlowToFlowConfig nodes edges s).nodes →
      (∀ t, fn.true_node_id = some t →
        ∃ e ∈ edges, e.source = fn.id ∧ e.target = t ∧
          (e.label = some "true" ∨ e.label = some "sim")) ∧
      (∀ t, fn.false_node_id = some t →
        ∃ e ∈ edges, e.source = fn.id ∧ e.target = t ∧
          (e.label = some "false" ∨ e.label = some "nao")) := by
  intro nodes edges s fn hfn
  obtain ⟨node, hnode, rfl⟩ := List.mem_map.mp hfn
  constructor
  · intro t ht
    obtain ⟨e, hfind, hte⟩ := Option.map_eq_some'.mp ht
    have hmemf := List.mem_of_find?_eq_some hfind
    rw [List.mem_filter] at hmemf
    have hpred := List.find?_some hfind
    simp only [isTrueLabel, Bool.or_eq_true, beq_iff_eq] at hpred
    exact ⟨e, hmemf.1, by simpa using hmemf.2, hte, hpred⟩
  · intro t ht
    obtain ⟨e, hfind, hte⟩ := Option.map_eq_some'.mp ht
    have hmemf := List.mem_of_find?_eq_some hfind
    rw [List.mem_filter] at hmemf
    have hpred := List.find?_some hfind
    simp only [isFalseLabel, Bool.or_eq_true, beq_iff_eq] at hpred
    exact ⟨e, hmemf.1, by simpa using hmemf.2, hte, hpred⟩

/-- C3 witness: the condition node whose only outgoing edge is labelled
"sim": its built true pointer is justified by that edge and its label lies in
the accepted true set. -/
theorem condition_branch_label_sets_witness :
    ∃ e ∈ [({ id := "e1", source := "c", target := "T",
              label := some "sim" } : CustomEdge)],
      e.source = "c" ∧ e.target = "T" ∧
      (e.label = some "true" ∨ e.label = some "sim") :=
  (condition_branch_label_sets
    [{ id := "c", type := "customNode", position := ⟨0, 0⟩,
       data := { label := "Cond", type := "CONDITION",
                 config := { operador := some .equals } } }]
    [{ id := "e1", source := "c", target := "T", label := some "sim" }]
    "c"
    { id := "c", type := "CONDITION", name := "Cond",
      config := { operador := some .equals },
      next_node_id := none, true_node_id := some "T", false_node_id := none,
      position := some ⟨0, 0⟩ }
    (List.Mem.head _)).1 "T" rfl

/-- C7 counterexample: a node with no recorded position does not round-trip
to itself — flowNodeToReactFlow substitutes (0,0) and reactFlowToFlowConfig
stores it, so the absent position comes back as some (0,0). -/
theorem position_absent_not_preserved :
    ((reactFlowToFlowConfig
        [flowNodeToReactFlow
          { id := "a", type := "MESSAGE", name := "A", config := {} }]
        [] "a").nodes.map FlowNode.position = [some ⟨0, 0⟩]) ∧
    ({ id := "a", type := "MESSAGE", name := "A",
       config := {} } : FlowNode).position = none :=
  ⟨rfl, rfl⟩

/-- C7 amended: a PRESENT position is preserved exactly by the round trip
(an absent one becomes some (0,0)), and position never influences any other
field: rebuilding a node through the editor representation with any position
substituted leaves every other produced field unchanged. -/
theorem position_preserved_and_frame :
    ∀ (n : FlowNode) (edges : List CustomEdge) (p : Option Position),
      (n.position.isSome = true →
        (reactFlowNodeOut edges (flowNodeToReactFlow n)).position = n.position) ∧
      ((reactFlowNodeOut edges (flowNodeToReactFlow { n with position := p })).id
          = (reactFlowNodeOut edges (flowNodeToReactFlow n)).id ∧
       (reactFlowNodeOut edges (flowNodeToReactFlow { n with position := p })).type
          = (reactFlowNodeOut edges (flowNodeToReactFlow n)).type ∧
       (reactFlowNodeOut edges (flowNodeToReactFlow { n with position := p })).name
          = (reactFlowNodeOut edges (flowNodeToReactFlow n)).name ∧
       (reactFlowNodeOut edges (flowNodeToReactFlow { n with position := p })).config
          = (reactFlowNodeOut edges (flowNodeToReactFlow n)).config ∧
       (reactFlowNodeOut edges
            (flowNodeToReactFlow { n with position := p })).next_node_id
          = (reactFlowNodeOut edges (flowNodeToReactFlow n)).next_node_id ∧
       (reactFlowNodeOut edges
            (flowNodeToReactFlow { n with position := p })).true_node_id
          = (reactFlowNodeOut edges (flowNodeToReactFlow n)).true_node_id ∧
       (reactFlowNodeOut edges
            (flowNodeToReactFlow { n with position := p })).false_node_id
          = (reactFlowNodeOut edges (flowNodeToReactFlow n)).false_node_id) := by
  intro n edges p
  constructor
  · intro hsome
    rcases hpos : n.position with _ | pos
    · rw [hpos] at hsome
      simp at hsome
    · show some ((n.position).getD ⟨0, 0⟩) = some pos
      rw [hpos]
      rfl
  · exact ⟨rfl, rfl, rfl, rfl, rfl, rfl, rfl⟩

/-- C7 witness: a node positioned at (3,4) keeps that exact position through
the rebuild, and swapping its position for none changes no other produced
field. -/
theorem position_preserved_and_frame_witness :
    ((reactFlowNodeOut [] (flowNodeToReactFlow
        { id := "a", type := "MESSAGE", name := "A", config := {},
          position := some ⟨3, 4⟩ })).position = some ⟨3, 4⟩) ∧
    ((reactFlowNodeOut [] (flowNodeToReactFlow
        ({ id := "a", type := "MESSAGE", name := "A", config := {},
           position := some ⟨3, 4⟩ } : FlowNode))).id
        = (reactFlowNodeOut [] (flowNodeToReactFlow
            { id := "a", type := "MESSAGE", name := "A", config := {},
              position := some ⟨3, 4⟩ })).id) :=
  ⟨(position_preserved_and_frame
      { id := "a", type := "MESSAGE", name := "A", config := {},
        position := some ⟨3, 4⟩ } [] none).1 rfl,
   ((position_preserved_and_frame
      { id := "a", type := "MESSAGE", name := "A", config := {},
        position := some ⟨3, 4⟩ } [] (some ⟨3, 4⟩)).2).1⟩

/-- C8: the display label never affects execution — editor graphs that agree
on everything except node labels produce documents that agree on every field
except the nodes' name: same ids, types, configs, next/true/false pointers,
positions, edges and start_node_id. -/
theorem label_never_affects_execution :
    ∀ (nodes1 nodes2 : List CustomNode) (edges : List CustomEdge) (s : String),
      List.Forall₂ sameButLabel nodes1 nodes2 →
      List.Forall₂ sameButName (reactFlowToFlowConfig nodes1 edges s).nodes
          (reactFlowToFlowConfig nodes2 edges s).nodes ∧
      (reactFlowToFlowConfig nodes1 edges s).edges
        = (reactFlowToFlowConfig nodes2 edges s).edges ∧
      (reactFlowToFlowConfig nodes1 edges s).start_node_id
        = (reactFlowToFlowConfig nodes2 edges s).start_node_id := by
  intro nodes1 nodes2 edges s h
  refine ⟨?_, rfl, rfl⟩
  show List.Forall₂ sameButName (nodes1.map (reactFlowNodeOut edges))
      (nodes2.map (reactFlowNodeOut edges))
  rw [List.forall₂_map_left_iff, List.forall₂_map_right_iff]
  refine h.imp ?_
  intro a b hab
  simp only [sameButLabel] at hab
  obtain ⟨hid, -, hpos, hdty, hcfg⟩ := hab
  simp only [sameButName]
  refine ⟨?_, ?_, ?_, ?_, ?_, ?_, ?_⟩ <;>
    simp only [reactFlowNodeOut, hid, hdty, hcfg, hpos]

/-- C8 witness: two single-node graphs differing only in the label Alpha
versus Beta produce documents agreeing on everything but the name. -/
theorem label_never_affects_execution_witness :
    List.Forall₂ sameButName
        (reactFlowToFlowConfig
          [{ id := "n", type := "customNode", position := ⟨5, 6⟩,
             data := { label := "Alpha", type := "MESSAGE", config := {} } }]
          [{ id := "e1", source := "n", target := "m" }] "n").nodes
        (reactFlowToFlowConfig
          [{ id := "n", type := "customNode", position := ⟨5, 6⟩,
             data := { label := "Beta", type := "MESSAGE", config := {} } }]
          [{ id := "e1", source := "n", target := "m" }] "n").nodes ∧
    (reactFlowToFlowConfig
        [{ id := "n", type := "customNode", position := ⟨5, 6⟩,
           data := { label := "Alpha", type := "MESSAGE", config := {} } }]
        [{ id := "e1", source := "n", target := "m" }] "n").edges
      = (reactFlowToFlowConfig
          [{ id := "n", type := "customNode", position := ⟨5, 6⟩,
             data := { label := "Beta", type := "MESSAGE", config := {} } }]
          [{ id := "e1", source := "n", target := "m" }] "n").edges ∧
    (reactFlowToFlowConfig
        [{ id := "n", type := "customNode", position := ⟨5, 6⟩,
           data := { label := "Alpha", type := "MESSAGE", config := {} } }]
        [{ id := "e1", source := "n", target := "m" }] "n").start_node_id
      = (reactFlowToFlowConfig
          [{ id := "n", type := "customNode", position := ⟨5, 6⟩,
             data := { label := "Beta", type := "MESSAGE", config := {} } }]
          [{ id := "e1", source := "n", target := "m" }] "n").start_node_id :=
  label_never_affects_execution
    [{ id := "n", type := "customNode", position := ⟨5, 6⟩,
       data := { label := "Alpha", type := "MESSAGE", config := {} } }]
    [{ id := "n", type := "customNode", position := ⟨5, 6⟩,
       data := { label := "Beta", type := "MESSAGE", config := {} } }]
    [{ id := "e1", source := "n", target := "m" }] "n"
    (List.Forall₂.cons ⟨rfl, rfl, rfl, rfl, rfl⟩ List.Forall₂.nil)

/-- The editor round trip rebuilds one document node from its own converted
edges: identity on id, type, name and config, branch pointers recomputed from
the edges, position defaulted to (0,0) when absent. -/
theorem reactFlowNodeOut_roundtrip (edges : List FlowEdge) (n : FlowNode) :
    reactFlowNodeOut (edges.map flowEdgeToReactFlow) (flowNodeToReactFlow n) =
      { id := n.id, type := n.type, name := n.name, config := n.config,
        next_node_id := derivedNext edges n.id,
        true_node_id := derivedTrue edges n.id,
        false_node_id := derivedFalse edges n.id,
        position := some (n.position.getD ⟨0, 0⟩) } := by
  refine FlowNode.ext rfl rfl rfl rfl ?_ ?_ ?_ rfl
  · show ((((edges.map flowEdgeToReactFlow).filter
        (fun e => e.source == n.id)).find?
        (fun e => isNextLabel e.label)).map CustomEdge.target)
      = derivedNext edges n.id
    rw [filter_map_comm, find?_map_comm, Option.map_map]
    rfl
  · show ((((edges.map flowEdgeToReactFlow).filter
        (fun e => e.source == n.id)).find?
        (fun e => isTrueLabel e.label)).map CustomEdge.target)
      = derivedTrue edges n.id
    rw [filter_map_comm, find?_map_comm, Option.map_map]
    rfl
  · show ((((edges.map flowEdgeToReactFlow).filter
        (fun e => e.source == n.id)).find?
        (fun e => isFalseLabel e.label)).map CustomEdge.target)
      = derivedFalse edges n.id
    rw [filter_map_comm, find?_map_comm, Option.map_map]
    rfl

/-- C2 counterexample: the round trip is not the identity on every document —
an absent node position comes back as some (0,0), and a stale next pointer
no edge backs is recomputed away — so the round-tripped nodes differ from the
originals. -/
theorem roundTrip_not_identity :
    ((roundTrip sampleDocNoPos).nodes.map FlowNode.position = [some ⟨0, 0⟩] ∧
     sampleDocNoPos.nodes.map FlowNode.position = [none]) ∧
    ((roundTrip sampleDocStalePtr).nodes.map FlowNode.next_node_id = [none] ∧
     sampleDocStalePtr.nodes.map FlowNode.next_node_id = [some "z"]) ∧
    ((roundTrip sampleDocNoPos).nodes = sampleDocNoPos.nodes → False) :=
  ⟨⟨rfl, rfl⟩, ⟨rfl, rfl⟩,
   fun h => absurd (congrArg (List.map FlowNode.position) h) (by decide)⟩

/-- C2 amended: the round trip always preserves the edges, the start node id
and the node id list exactly; and it is the identity on the whole node list
for every document whose nodes all record a position and whose
next/true/false pointers agree with the ones the document's own edges induce
(an absent position comes back as some (0,0), and pointers are recomputed
from the edges). -/
theorem roundTrip_preserves_document :
    ∀ doc : FlowConfig,
      ((roundTrip doc).nodes.map FlowNode.id = doc.nodes.map FlowNode.id ∧
       (roundTrip doc).edges = doc.edges ∧
       (roundTrip doc).start_node_id = doc.start_node_id) ∧
      ((∀ n ∈ doc.nodes,
          n.position.isSome = true ∧
          n.next_node_id = derivedNext doc.edges n.id ∧
          n.true_node_id = derivedTrue doc.edges n.id ∧
          n.false_node_id = derivedFalse doc.edges n.id) →
        (roundTrip doc).nodes = doc.nodes) := by
  intro doc
  constructor
  · refine ⟨?_, ?_, rfl⟩
    · show ((doc.nodes.map flowNodeToReactFlow).map
          (reactFlowNodeOut (doc.edges.map flowEdgeToReactFlow))).map
          FlowNode.id = doc.nodes.map FlowNode.id
      rw [List.map_map, List.map_map]
      exact List.map_congr_left (fun n _ => rfl)
    · show (doc.edges.map flowEdgeToReactFlow).map (fun edge =>
          ({ id := edge.id, source := edge.source, target := edge.target,
             label := edge.label } : FlowEdge)) = doc.edges
      rw [List.map_map]
      have h1 : doc.edges.map ((fun edge =>
          ({ id := edge.id, source := edge.source, target := edge.target,
             label := edge.label } : FlowEdge)) ∘ flowEdgeToReactFlow)
          = doc.edges.map (fun e => e) :=
        List.map_congr_left (fun e _ => rfl)
      rw [h1, List.map_id']
  · intro h
    show (doc.nodes.map flowNodeToReactFlow).map
        (reactFlowNodeOut (doc.edges.map flowEdgeToReactFlow)) = doc.nodes
    rw [List.map_map]
    have key : ∀ n ∈ doc.nodes,
        (reactFlowNodeOut (doc.edges.map flowEdgeToReactFlow) ∘
          flowNodeToReactFlow) n = n := by
      intro n hn
      obtain ⟨hsome, hnx, htr, hfl⟩ := h n hn
      show reactFlowNodeOut (doc.edges.map flowEdgeToReactFlow)
          (flowNodeToReactFlow n) = n
      rw [reactFlowNodeOut_roundtrip]
      refine FlowNode.ext rfl rfl rfl rfl hnx.symm htr.symm hfl.symm ?_
      show some ((n.position).getD ⟨0, 0⟩) = n.position
      rcases hpos : n.position with _ | pos
      · rw [hpos] at hsome
        simp at hsome
      · rfl
    have h2 : doc.nodes.map (reactFlowNodeOut
          (doc.edges.map flowEdgeToReactFlow) ∘ flowNodeToReactFlow)
        = doc.nodes.map (fun n => n) := List.map_congr_left key
    rw [h2, List.map_id']

/-- C2 witness: the two-node document with recorded positions and pointers
matching its edges round-trips to exactly its own node list. -/
theorem roundTrip_preserves_document_witness :
    (roundTrip sampleDocGood).nodes = sampleDocGood.nodes :=
  (roundTrip_preserves_document sampleDocGood).2 (by decide)

/-- C5: whenever some edge endpoint names a missing node, the validator
returns a non-empty structured error list whose entries all carry the
class-one codes (the reference check runs first and fails fast), and every
offending edge is covered: each dangling source contributes its
unknown-source pair and each dangling target its unknown-target pair; the
validator is a total function, so no input raises an exception. -/
theorem validator_structured_reference_errors :
    ∀ doc : FlowConfig,
      (∃ e ∈ doc.edges,
        (doc.nodes.map FlowNode.id).contains e.source = false ∨
        (doc.nodes.map FlowNode.id).contains e.target = false) →
      validateFlow doc ≠ [] ∧
      (∀ err ∈ validateFlow doc,
        err.code = ProblemCode.unknown_source ∨
        err.code = ProblemCode.unknown_target) ∧
      (∀ e ∈ doc.edges,
        ((doc.nodes.map FlowNode.id).contains e.source = false →
          (⟨e.id, ProblemCode.unknown_source⟩ : ValidationError) ∈
            validateFlow doc) ∧
        ((doc.nodes.map FlowNode.id).contains e.target = false →
          (⟨e.id, ProblemCode.unknown_target⟩ : ValidationError) ∈
            validateFlow doc)) := by
  intro doc hex
  have hne : refErrsOf doc ≠ [] := by
    obtain ⟨e, he, hcase⟩ := hex
    rcases hcase with hbad | hbad
    · refine List.ne_nil_of_mem
        (a := (⟨e.id, ProblemCode.unknown_source⟩ : ValidationError)) ?_
      rw [refErrsOf]
      exact List.mem_append_left _
        (List.mem_map_of_mem _ (List.mem_filter.mpr ⟨he, by rw [hbad]; rfl⟩))
    · refine List.ne_nil_of_mem
        (a := (⟨e.id, ProblemCode.unknown_target⟩ : ValidationError)) ?_
      rw [refErrsOf]
      exact List.mem_append_right _
        (List.mem_map_of_mem _ (List.mem_filter.mpr ⟨he, by rw [hbad]; rfl⟩))
  have hval : validateFlow doc = refErrsOf doc := by
    rw [validateFlow, if_pos]
    simpa using hne
  refine ⟨by rw [hval]; exact hne, ?_, ?_⟩
  · intro err herr
    rw [hval, refErrsOf] at herr
    rcases List.mem_append.mp herr with h1 | h1
    · obtain ⟨e', -, rfl⟩ := List.mem_map.mp h1
      left
      rfl
    · obtain ⟨e', -, rfl⟩ := List.mem_map.mp h1
      right
      rfl
  · intro e he
    constructor
    · intro hbad
      rw [hval, refErrsOf]
      exact List.mem_append_left _
        (List.mem_map_of_mem _ (List.mem_filter.mpr ⟨he, by rw [hbad]; rfl⟩))
    · intro hbad
      rw [hval, refErrsOf]
      exact List.mem_append_right _
        (List.mem_map_of_mem _ (List.mem_filter.mpr ⟨he, by rw [hbad]; rfl⟩))

/-- C5 witness: the document whose single edge hangs between two missing
nodes gets a non-empty, all-reference-code error list covering that edge. -/
theorem validator_structured_reference_errors_witness :
    validateFlow sampleDocDangling ≠ [] ∧
    (∀ err ∈ validateFlow sampleDocDangling,
      err.code = ProblemCode.unknown_source ∨
      err.code = ProblemCode.unknown_target) ∧
    (∀ e ∈ sampleDocDangling.edges,
      ((sampleDocDangling.nodes.map FlowNode.id).contains e.source = false →
        (⟨e.id, ProblemCode.unknown_source⟩ : ValidationError) ∈
          validateFlow sampleDocDangling) ∧
      ((sampleDocDangling.nodes.map FlowNode.id).contains e.target = false →
        (⟨e.id, ProblemCode.unknown_target⟩ : ValidationError) ∈
          validateFlow sampleDocDangling)) :=
  validator_structured_reference_errors sampleDocDangling (by decide)
